import Mathlib

/-!
Shallow embedding of `src/electroninserts/electroninserts.py`.

The module fits a smoothed bivariate spline to calibration triples
(width, ratio of perimeter to area, insert factor) and gates each
prediction by a "deformability" diagnostic.  The spline fitting itself is
performed by an external library (`scipy.interpolate.SmoothBivariateSpline`);
we model the fitted-and-evaluated spline as an abstract parameter `ev` of
type `SplineEv`, receiving the data arrays, the (optional) bounding box and
the evaluation point.  All numeric payloads are exact rationals; the
floating-point special values `nan`, `inf` and `-inf` that the module uses
as sentinels and produces on division by zero are modelled explicitly by
the type `NpFloat`.

Two defects in the source are recorded faithfully:
* `_single_calculate_deformability` reads the name `initial_fit`
  (lines 98-99) which is never bound anywhere; the variable holding the
  baseline evaluation is called `initial_model` (line 95) and is the one
  used at lines 108-111, so the intended reading binds both appended z
  values to `initial_model ± deviation`.  The definitions below embed this
  intended reading; at runtime the Python function raises `NameError`.
* the 2-D branch of `calculate_deformability` (lines 157-162) is a
  malformed comprehension (a stray colon after `for j in range(dim[1])`
  makes the file a SyntaxError); reading it with the stray colon removed
  gives an iteration whose outer index `j` ranges over `dim[1]` and whose
  inner index `i` ranges over `dim[0]`, producing a transposed array of
  shape `(dim[1], dim[0])`.  That reading is embedded separately as
  `calculate_deformability_asWritten`; the shape-correct iteration over the
  true row and column extents is embedded as `calculate_deformability`.
-/

set_option autoImplicit false

namespace Electroninserts

/-- A numpy floating-point scalar: a finite value (modelled as an exact
rational), one of the two infinities, or `nan`. -/
inductive NpFloat where
  | num (q : ℚ)
  | posInf
  | negInf
  | nan
  deriving DecidableEq

namespace NpFloat

/-- IEEE-style subtraction on `NpFloat`. -/
def sub : NpFloat → NpFloat → NpFloat
  | nan, _ => nan
  | _, nan => nan
  | num a, num b => num (a - b)
  | num _, posInf => negInf
  | num _, negInf => posInf
  | posInf, num _ => posInf
  | negInf, num _ => negInf
  | posInf, posInf => nan
  | posInf, negInf => posInf
  | negInf, posInf => negInf
  | negInf, negInf => nan

/-- IEEE-style multiplication on `NpFloat`. -/
def mul : NpFloat → NpFloat → NpFloat
  | nan, _ => nan
  | _, nan => nan
  | num a, num b => num (a * b)
  | num a, posInf => if 0 < a then posInf else if a < 0 then negInf else nan
  | num a, negInf => if 0 < a then negInf else if a < 0 then posInf else nan
  | posInf, num b => if 0 < b then posInf else if b < 0 then negInf else nan
  | negInf, num b => if 0 < b then negInf else if b < 0 then posInf else nan
  | posInf, posInf => posInf
  | posInf, negInf => negInf
  | negInf, posInf => negInf
  | negInf, negInf => posInf

/-- IEEE-style division on `NpFloat`; numpy emits a warning on division by
zero but returns `±inf` (or `nan` for `0/0`) rather than raising. -/
def div : NpFloat → NpFloat → NpFloat
  | nan, _ => nan
  | _, nan => nan
  | num a, num b =>
      if b = 0 then (if 0 < a then posInf else if a < 0 then negInf else nan)
      else num (a / b)
  | num _, posInf => num 0
  | num _, negInf => num 0
  | posInf, num b => if 0 ≤ b then posInf else negInf
  | negInf, num b => if 0 ≤ b then negInf else posInf
  | posInf, posInf => nan
  | posInf, negInf => nan
  | negInf, posInf => nan
  | negInf, negInf => nan

/-- Whether the value is an ordinary finite number. -/
def isFinite : NpFloat → Bool
  | num _ => true
  | _ => false

end NpFloat

/-- A query argument: numpy scalar, 1-D array or 2-D array.  The module's
batched routines dispatch on exactly these three shapes. -/
inductive Query (α : Type) where
  | scalar (a : α)
  | vec (v : List α)
  | mat (m : List (List α))
  deriving DecidableEq

namespace Query

variable {α β γ : Type}

/-- `np.shape`: `()` for a scalar, `(n,)` for a 1-D array,
`(rows, cols)` for a 2-D array (rectangularity supplied by numpy). -/
def shape : Query α → List Nat
  | scalar _ => []
  | vec v => [v.length]
  | mat m => [m.length, (m.getD 0 []).length]

/-- All entries, flattened in row-major order. -/
def toList : Query α → List α
  | scalar a => [a]
  | vec v => v
  | mat m => m.flatten

/-- Read a scalar query (default `d` if the query is not scalar). -/
def getS (d : α) : Query α → α
  | scalar a => a
  | _ => d

/-- Index into a 1-D query (default `d` out of shape or bounds). -/
def get1 (d : α) : Query α → Nat → α
  | vec v, i => v.getD i d
  | _, _ => d

/-- Index into a 2-D query (default `d` out of shape or bounds). -/
def get2 (d : α) : Query α → Nat → Nat → α
  | mat m, i, j => (m.getD i []).getD j d
  | _, _, _ => d

/-- Elementwise combination in numpy style: the shape is that of the first
argument, the second argument is read at the corresponding position.  This
is exactly the iteration pattern of the source's batched routines: a scalar
branch, a 1-D branch `for i in range(dim[0])` and a 2-D branch iterating the
row extent `dim[0]` outside and the column extent `dim[1]` inside. -/
def pw (da : α) (db : β) (f : α → β → γ) : Query α → Query β → Query γ
  | scalar a, q2 => scalar (f a (q2.getS db))
  | vec v, q2 => vec ((List.range v.length).map fun i => f (v.getD i da) (q2.get1 db i))
  | mat m, q2 =>
      mat ((List.range m.length).map fun i =>
        (List.range (m.getD 0 []).length).map fun j =>
          f ((m.getD i []).getD j da) (q2.get2 db i j))

/-- Structural agreement of two queries (same numpy rank). -/
def kindEq {β2 : Type} : Query α → Query β2 → Prop
  | scalar _, scalar _ => True
  | vec _, vec _ => True
  | mat _, mat _ => True
  | _, _ => False

/-- Rectangularity: a 2-D numpy array has rows of equal length. -/
def rect : Query α → Prop
  | mat m => ∀ r ∈ m, r.length = (m.getD 0 []).length
  | _ => True

/-- Position `(i, j)` of a query; for a scalar only `(0,0)` is in bounds,
for a 1-D query `j` must be `0`. -/
def getP (d : α) : Query α → Nat × Nat → α
  | scalar a, _ => a
  | vec v, p => v.getD p.1 d
  | mat m, p => (m.getD p.1 []).getD p.2 d

/-- The in-bounds positions of a query. -/
def inB : Query α → Nat × Nat → Prop
  | scalar _, p => p = (0, 0)
  | vec v, p => p.1 < v.length ∧ p.2 = 0
  | mat m, p => p.1 < m.length ∧ p.2 < (m.getD p.1 []).length

end Query

/-- The abstract spline backend: given the three data arrays, an optional
bounding box `[xmin, xmax, ymin, ymax]` (the source sometimes omits it) and
an evaluation point, `SmoothBivariateSpline(xd, yd, zd, kx=2, ky=1, bbox=b)
.ev(x, y)` returns some finite value.  The library numerics are assumed
deterministic, so the backend is a function of exactly these arguments. -/
abbrev Bbox := ℚ × ℚ × ℚ × ℚ

abbrev SplineEv := List ℚ → List ℚ → List ℚ → Option Bbox → ℚ → ℚ → ℚ

/-- `np.min` over a nonempty array (junk value `0` on the empty array,
where numpy raises). -/
def npMin : List ℚ → ℚ
  | [] => 0
  | a :: t => t.foldl min a

/-- `np.max` over a nonempty array (junk value `0` on the empty array). -/
def npMax : List ℚ → ℚ
  | [] => 0
  | a :: t => t.foldl max a

/-- The bounding box of `spline_model` (source lines 50-54): the union of
the data range and the query range on each axis. -/
def spline_model_bbox (width_test ratio_perim_area_test : Query ℚ)
    (width_data ratio_perim_area_data : List ℚ) : Bbox :=
  (min (npMin width_data) (npMin width_test.toList),
   max (npMax width_data) (npMax width_test.toList),
   min (npMin ratio_perim_area_data) (npMin ratio_perim_area_test.toList),
   max (npMax ratio_perim_area_data) (npMax ratio_perim_area_test.toList))

/-- `spline_model` (source lines 22-59): fit a degree (2,1) smoothing
spline over the data, constrained to the widened bounding box, and evaluate
it elementwise at the query coordinates. -/
def spline_model (ev : SplineEv) (width_test ratio_perim_area_test : Query ℚ)
    (width_data ratio_perim_area_data factor_data : List ℚ) : Query ℚ :=
  Query.pw 0 0
    (fun x y => ev width_data ratio_perim_area_data factor_data
      (some (spline_model_bbox width_test ratio_perim_area_test
        width_data ratio_perim_area_data)) x y)
    width_test ratio_perim_area_test

/-- The bounding box of `_single_calculate_deformability` (source lines
91-93): the range of the data arrays with the test point appended. -/
def deformability_bbox (x_test y_test : ℚ) (x_data y_data : List ℚ) : Bbox :=
  (npMin (x_data ++ [x_test]), npMax (x_data ++ [x_test]),
   npMin (y_data ++ [y_test]), npMax (y_data ++ [y_test]))

/-- `_single_calculate_deformability` (source lines 62-116), with the
`initial_fit` `NameError` read as its clearly intended referent
`initial_model`: evaluate a baseline fit at the test point, append the test
point with z value `baseline ± 0.02`, refit (without a bounding box, as in
the source) and evaluate, and return the larger of the two normalised
deviations. -/
def single_calculate_deformability (ev : SplineEv) (x_test y_test : ℚ)
    (x_data y_data z_data : List ℚ) : ℚ :=
  let deviation : ℚ := 1 / 50
  let adjusted_x_data := x_data ++ [x_test]
  let adjusted_y_data := y_data ++ [y_test]
  let bbox := deformability_bbox x_test y_test x_data y_data
  let initial_model := ev x_data y_data z_data (some bbox) x_test y_test
  let pos_adjusted_z_data := z_data ++ [initial_model + deviation]
  let neg_adjusted_z_data := z_data ++ [initial_model - deviation]
  let pos_adjusted_model :=
    ev adjusted_x_data adjusted_y_data pos_adjusted_z_data none x_test y_test
  let neg_adjusted_model :=
    ev adjusted_x_data adjusted_y_data neg_adjusted_z_data none x_test y_test
  max ((pos_adjusted_model - initial_model) / deviation)
    ((initial_model - neg_adjusted_model) / deviation)

/-- `calculate_deformability` (source lines 119-166) with the 2-D branch
iterating the true row extent `dim[0]` outside and the true column extent
`dim[1]` inside, as the declared output shape requires: apply the
single-point deformability elementwise, preserving the query shape. -/
def calculate_deformability (ev : SplineEv) (x_test y_test : Query ℚ)
    (x_data y_data z_data : List ℚ) : Query ℚ :=
  Query.pw 0 0
    (fun x y => single_calculate_deformability ev x y x_data y_data z_data)
    x_test y_test

/-- The 2-D branch of `calculate_deformability` as written in the source
(lines 157-162) with only the stray colon removed: the outer comprehension
index `j` ranges over `dim[1]` and the inner index `i` over `dim[0]`, so
cell `(i, j)` of the query lands at position `(j, i)` of the output, whose
shape is the transpose `(dim[1], dim[0])`. -/
def calculate_deformability_asWritten (ev : SplineEv) (x_test y_test : Query ℚ)
    (x_data y_data z_data : List ℚ) : Query ℚ :=
  match x_test with
  | Query.mat m =>
      Query.mat ((List.range (m.getD 0 []).length).map fun j =>
        (List.range m.length).map fun i =>
          single_calculate_deformability ev ((m.getD i []).getD j 0)
            (y_test.get2 0 i j) x_data y_data z_data)
  | q => calculate_deformability ev q y_test x_data y_data z_data

/-- `spline_model_with_deformability` (source lines 169-207): compute the
deformability and the spline prediction for every query position, then set
the positions whose deformability exceeds `0.5` to `np.nan`
(`model_factor[deformability > 0.5] = np.nan`, line 205). -/
def spline_model_with_deformability (ev : SplineEv)
    (width_test ratio_perim_area_test : Query ℚ)
    (width_data ratio_perim_area_data factor_data : List ℚ) : Query NpFloat :=
  let deformability := calculate_deformability ev
    width_test ratio_perim_area_test
    width_data ratio_perim_area_data factor_data
  let model_factor := spline_model ev
    width_test ratio_perim_area_test
    width_data ratio_perim_area_data factor_data
  Query.pw 0 0
    (fun mf df => if (1 : ℚ) / 2 < df then NpFloat.nan else NpFloat.num mf)
    model_factor deformability

/-- `calculate_percent_prediction_differences` (source lines 210-220):
leave each calibration index out in turn (`np.delete`), predict at the
left-out point through the gated predictor, and return
`100 * (factor_data - predictions) / factor_data` elementwise in
floating-point arithmetic. -/
def calculate_percent_prediction_differences (ev : SplineEv)
    (width_data ratio_perim_area_data factor_data : List ℚ) : List NpFloat :=
  let predictions := (List.range width_data.length).map fun i =>
    (spline_model_with_deformability ev
      (Query.scalar (width_data.getD i 0))
      (Query.scalar (ratio_perim_area_data.getD i 0))
      (width_data.eraseIdx i) (ratio_perim_area_data.eraseIdx i)
      (factor_data.eraseIdx i)).getS NpFloat.nan
  (List.range width_data.length).map fun i =>
    NpFloat.div
      (NpFloat.mul (NpFloat.num 100)
        (NpFloat.sub (NpFloat.num (factor_data.getD i 0))
          (predictions.getD i NpFloat.nan)))
      (NpFloat.num (factor_data.getD i 0))

/-- A concrete spline backend used to evaluate the embedding on explicit
inputs: it returns `0` when a bounding box is supplied and otherwise scales
the last z datum by the x coordinate.  Under this backend the single-point
deformability of a test point `x` is exactly `x`, which makes cell
placement in the batched routines observable. -/
def evMark : SplineEv := fun _ _ zd bb x _ =>
  match bb with
  | some _ => 0
  | none => zd.getLastD 0 * x

/-- A concrete spline backend that interpolates nothing and just reports
the last z datum: the fit tracks the appended outlier exactly, so every
point has deformability `1` (an unconstrained fit). -/
def evLast : SplineEv := fun _ _ zd _ _ _ => zd.getLastD 0

/-!
### Store model

The claims about mutation need the numpy arrays to be addressable: a
`Store` is the list of arrays allocated so far and a `Ref` an index into
it.  `np.append`, `np.delete` and `spline.ev` allocate fresh arrays;
the only in-place write in the module is the masking assignment
`model_factor[deformability > 0.5] = np.nan` (line 205), which targets the
array freshly returned by `spline.ev`.  Each operation is re-expressed as
a function from a store to a store (with the numeric payloads delegated to
the pure definitions above), so that "no caller-supplied array is mutated"
becomes: every array present before the call reads back unchanged after
the call.
-/

/-- A heap-allocated numpy array. -/
abbrev Arr := List NpFloat

/-- The allocation state: all arrays created so far, addressed by index. -/
abbrev Store := List Arr

/-- A reference to an array in a `Store`. -/
abbrev Ref := Nat

/-- Read the array a reference designates (empty for a dangling one). -/
def Store.read (σ : Store) (r : Ref) : Arr := σ.getD r []

/-- Allocate a fresh array and return its reference. -/
def Store.alloc (σ : Store) (a : Arr) : Store × Ref := (σ ++ [a], σ.length)

/-- Overwrite the array a reference designates (in-place mutation). -/
def Store.write (σ : Store) (r : Ref) (a : Arr) : Store := σ.set r a

/-- The finite rational payloads of an array. -/
def Arr.vals (a : Arr) : List ℚ :=
  a.map fun v => match v with | NpFloat.num q => q | _ => 0

/-- Wrap plain rationals as array elements. -/
def Arr.ofVals (l : List ℚ) : Arr := l.map NpFloat.num

/-- `_single_calculate_deformability` over the store: two `np.append`s on
the coordinate data (lines 88-89), and two `np.append`s building the
positively and negatively nudged z arrays (lines 98-99); all four create
fresh arrays.  The returned score delegates to the pure definition. -/
def single_calculate_deformability_st (ev : SplineEv) (σ : Store)
    (x_test y_test : ℚ) (x_data y_data z_data : Ref) : Store × ℚ :=
  let xdv := (σ.read x_data).vals
  let ydv := (σ.read y_data).vals
  let zdv := (σ.read z_data).vals
  let σ1 := (σ.alloc ((σ.read x_data) ++ [NpFloat.num x_test])).1
  let σ2 := (σ1.alloc ((σ.read y_data) ++ [NpFloat.num y_test])).1
  let initial_model :=
    ev xdv ydv zdv (some (deformability_bbox x_test y_test xdv ydv)) x_test y_test
  let σ3 := (σ2.alloc ((σ.read z_data) ++ [NpFloat.num (initial_model + 1 / 50)])).1
  let σ4 := (σ3.alloc ((σ.read z_data) ++ [NpFloat.num (initial_model - 1 / 50)])).1
  (σ4, single_calculate_deformability ev x_test y_test xdv ydv zdv)

/-- One iteration of the loop of `calculate_deformability` over the store:
run the single-point routine on element `i` and collect its score. -/
def calc_deform_step (ev : SplineEv) (xtv ytv : List ℚ)
    (x_data y_data z_data : Ref) (acc : Store × List ℚ) (i : Nat) :
    Store × List ℚ :=
  let s := single_calculate_deformability_st ev acc.1 (xtv.getD i 0)
    (ytv.getD i 0) x_data y_data z_data
  (s.1, acc.2 ++ [s.2])

/-- `calculate_deformability` over the store for a 1-D query: run the
single-point routine on each element in order and collect the scores into
a freshly allocated `np.array`. -/
def calculate_deformability_st (ev : SplineEv) (σ : Store)
    (x_test y_test x_data y_data z_data : Ref) : Store × Ref :=
  let xtv := (σ.read x_test).vals
  let ytv := (σ.read y_test).vals
  let res := (List.range xtv.length).foldl
    (calc_deform_step ev xtv ytv x_data y_data z_data) (σ, [])
  res.1.alloc (Arr.ofVals res.2)

/-- `spline_model_with_deformability` over the store for a 1-D query:
compute the deformability array, allocate the fresh prediction array that
`spline.ev` returns, then mutate that fresh array in place
(`model_factor[deformability > 0.5] = np.nan`). -/
def spline_model_with_deformability_st (ev : SplineEv) (σ : Store)
    (width_test ratio_perim_area_test width_data ratio_perim_area_data
      factor_data : Ref) : Store × Ref :=
  let d := calculate_deformability_st ev σ width_test ratio_perim_area_test
    width_data ratio_perim_area_data factor_data
  let σ1 := d.1
  let m := spline_model ev (Query.vec ((σ1.read width_test).vals))
    (Query.vec ((σ1.read ratio_perim_area_test).vals))
    ((σ1.read width_data).vals) ((σ1.read ratio_perim_area_data).vals)
    ((σ1.read factor_data).vals)
  let mr := σ1.alloc (Arr.ofVals m.toList)
  let σ2 := mr.1
  let dvals := (σ2.read d.2).vals
  let masked := (List.range (σ2.read mr.2).length).map fun i =>
    if (1 : ℚ) / 2 < dvals.getD i 0 then NpFloat.nan
    else (σ2.read mr.2).getD i NpFloat.nan
  (σ2.write mr.2 masked, mr.2)

/-- `spline_model_with_deformability` over the store for the scalar query
used by the leave-one-out loop: the 0-d deformability and prediction arrays
are fresh, and the masking write again targets the fresh prediction. -/
def spline_model_with_deformability_scalar_st (ev : SplineEv) (σ : Store)
    (x_test y_test : ℚ) (width_data ratio_perim_area_data factor_data : Ref) :
    Store × Ref :=
  let s := single_calculate_deformability_st ev σ x_test y_test
    width_data ratio_perim_area_data factor_data
  let dr := s.1.alloc [NpFloat.num s.2]
  let σ1 := dr.1
  let m := (spline_model ev (Query.scalar x_test) (Query.scalar y_test)
    ((σ1.read width_data).vals) ((σ1.read ratio_perim_area_data).vals)
    ((σ1.read factor_data).vals)).getS 0
  let mr := σ1.alloc [NpFloat.num m]
  let σ2 := mr.1
  let masked := if (1 : ℚ) / 2 < s.2 then [NpFloat.nan] else σ2.read mr.2
  (σ2.write mr.2 masked, mr.2)

/-- `calculate_percent_prediction_differences` over the store: for each
calibration index three `np.delete`s allocate the leave-one-out arrays
(lines 215-216), the gated predictor runs on them, and the collected
percent differences are returned as a fresh array. -/
def cppd_step (ev : SplineEv) (wdv rdv fdv : List ℚ)
    (width_data ratio_perim_area_data factor_data : Ref)
    (acc : Store × List NpFloat) (i : Nat) : Store × List NpFloat :=
  let σ0 := acc.1
  let wdel := σ0.alloc ((σ0.read width_data).eraseIdx i)
  let rdel := wdel.1.alloc ((wdel.1.read ratio_perim_area_data).eraseIdx i)
  let fdel := rdel.1.alloc ((rdel.1.read factor_data).eraseIdx i)
  let pr := spline_model_with_deformability_scalar_st ev fdel.1
    (wdv.getD i 0) (rdv.getD i 0) wdel.2 rdel.2 fdel.2
  let pv := (pr.1.read pr.2).getD 0 NpFloat.nan
  (pr.1,
   acc.2 ++ [NpFloat.div
     (NpFloat.mul (NpFloat.num 100)
       (NpFloat.sub (NpFloat.num (fdv.getD i 0)) pv))
     (NpFloat.num (fdv.getD i 0))])

def calculate_percent_prediction_differences_st (ev : SplineEv) (σ : Store)
    (width_data ratio_perim_area_data factor_data : Ref) : Store × Ref :=
  let n := (σ.read width_data).length
  let wdv := (σ.read width_data).vals
  let rdv := (σ.read ratio_perim_area_data).vals
  let fdv := (σ.read factor_data).vals
  let res := (List.range n).foldl
    (cppd_step ev wdv rdv fdv width_data ratio_perim_area_data factor_data)
    (σ, [])
  res.1.alloc res.2

/-- `σ.grows σ'` : `σ'` extends `σ` — every array allocated in `σ` is
still present, at the same reference, with unchanged contents. -/
def Store.grows (σ σ' : Store) : Prop :=
  σ.length ≤ σ'.length ∧ ∀ r, r < σ.length → σ'.read r = σ.read r

/-! ### Helper lemmas -/

/-- Reading a mapped range at an in-bounds index. -/
theorem getD_map_range {α : Type} (f : Nat → α) {n i : Nat} (d : α) (h : i < n) :
    ((List.range n).map f).getD i d = f i := by
  rw [List.getD_eq_getElem?_getD, List.getElem?_map, List.getElem?_range h]
  rfl

/-- An in-bounds `getD` read is a member of the list. -/
theorem getD_mem {α : Type} {l : List α} {i : Nat} (d : α) (h : i < l.length) :
    l.getD i d ∈ l := by
  rw [List.getD_eq_getElem?_getD, List.getElem?_eq_getElem h]
  exact List.getElem_mem h

theorem foldl_min_le_init (t : List ℚ) (a : ℚ) : t.foldl min a ≤ a := by
  induction t generalizing a with
  | nil => exact le_refl a
  | cons b t ih => exact le_trans (ih (min a b)) (min_le_left a b)

theorem foldl_min_le_mem {x : ℚ} {t : List ℚ} (a : ℚ) (hx : x ∈ t) :
    t.foldl min a ≤ x := by
  induction t generalizing a with
  | nil => cases hx
  | cons b t ih =>
    rcases List.mem_cons.mp hx with h | h
    · subst h
      exact le_trans (foldl_min_le_init t (min a x)) (min_le_right a x)
    · exact ih (min a b) h

/-- `np.min` bounds every member from below. -/
theorem npMin_le {x : ℚ} {l : List ℚ} (hx : x ∈ l) : npMin l ≤ x := by
  cases l with
  | nil => cases hx
  | cons a t =>
    show t.foldl min a ≤ x
    rcases List.mem_cons.mp hx with h | h
    · subst h
      exact foldl_min_le_init t x
    · exact foldl_min_le_mem a h

theorem init_le_foldl_max (t : List ℚ) (a : ℚ) : a ≤ t.foldl max a := by
  induction t generalizing a with
  | nil => exact le_refl a
  | cons b t ih => exact le_trans (le_max_left a b) (ih (max a b))

theorem mem_le_foldl_max {x : ℚ} {t : List ℚ} (a : ℚ) (hx : x ∈ t) :
    x ≤ t.foldl max a := by
  induction t generalizing a with
  | nil => cases hx
  | cons b t ih =>
    rcases List.mem_cons.mp hx with h | h
    · subst h
      exact le_trans (le_max_right a x) (init_le_foldl_max t (max a x))
    · exact ih (max a b) h

/-- `np.max` bounds every member from above. -/
theorem le_npMax {x : ℚ} {l : List ℚ} (hx : x ∈ l) : x ≤ npMax l := by
  cases l with
  | nil => cases hx
  | cons a t =>
    show x ≤ t.foldl max a
    rcases List.mem_cons.mp hx with h | h
    · subst h
      exact init_le_foldl_max t x
    · exact mem_le_foldl_max a h

theorem foldl_min_min (t : List ℚ) (c a : ℚ) :
    t.foldl min (min c a) = min c (t.foldl min a) := by
  induction t generalizing a with
  | nil => rfl
  | cons b t ih =>
    show t.foldl min (min (min c a) b) = min c (t.foldl min (min a b))
    rw [min_assoc, ih]

theorem foldl_max_max (t : List ℚ) (c a : ℚ) :
    t.foldl max (max c a) = max c (t.foldl max a) := by
  induction t generalizing a with
  | nil => rfl
  | cons b t ih =>
    show t.foldl max (max (max c a) b) = max c (t.foldl max (max a b))
    rw [max_assoc, ih]

/-- `np.min` over the concatenation of two nonempty arrays is the minimum
of the two minima, as `spline_model`'s bounding box computes it. -/
theorem npMin_append {l₁ l₂ : List ℚ} (h₁ : l₁ ≠ []) (h₂ : l₂ ≠ []) :
    npMin (l₁ ++ l₂) = min (npMin l₁) (npMin l₂) := by
  cases l₁ with
  | nil => exact absurd rfl h₁
  | cons a t =>
    cases l₂ with
    | nil => exact absurd rfl h₂
    | cons b s =>
      show (t ++ b :: s).foldl min a = min (t.foldl min a) (s.foldl min b)
      rw [List.foldl_append, List.foldl_cons]
      exact foldl_min_min s (t.foldl min a) b

theorem npMax_append {l₁ l₂ : List ℚ} (h₁ : l₁ ≠ []) (h₂ : l₂ ≠ []) :
    npMax (l₁ ++ l₂) = max (npMax l₁) (npMax l₂) := by
  cases l₁ with
  | nil => exact absurd rfl h₁
  | cons a t =>
    cases l₂ with
    | nil => exact absurd rfl h₂
    | cons b s =>
      show (t ++ b :: s).foldl max a = max (t.foldl max a) (s.foldl max b)
      rw [List.foldl_append, List.foldl_cons]
      exact foldl_max_max s (t.foldl max a) b

section PwLemmas

variable {α β γ α2 β2 γ2 : Type}

/-- `Query.pw` preserves the shape of its first argument. -/
theorem shape_pw (da : α) (db : β) (f : α → β → γ) (q1 : Query α) (q2 : Query β) :
    (Query.pw da db f q1 q2).shape = q1.shape := by
  cases q1 with
  | scalar a => rfl
  | vec v => simp [Query.pw, Query.shape]
  | mat m =>
    cases m with
    | nil => rfl
    | cons r rs =>
      simp only [Query.pw, Query.shape, List.length_map, List.length_range]
      rw [getD_map_range _ _ (show 0 < (r :: rs).length from Nat.succ_pos rs.length)]
      simp

/-- `Query.pw` outputs structurally agree whenever their first arguments
coincide. -/
theorem kindEq_pw (da : α) (db : β) (f : α → β → γ) (da2 : α) (db2 : β2)
    (f2 : α → β2 → γ2) (q1 : Query α) (q2 : Query β) (q3 : Query β2) :
    Query.kindEq (Query.pw da db f q1 q2) (Query.pw da2 db2 f2 q1 q3) := by
  cases q1 <;> trivial

/-- `Query.pw` outputs are rectangular. -/
theorem rect_pw (da : α) (db : β) (f : α → β → γ) (q1 : Query α) (q2 : Query β) :
    (Query.pw da db f q1 q2).rect := by
  cases q1 with
  | scalar a => trivial
  | vec v => trivial
  | mat m =>
    intro r hr
    rcases List.mem_map.mp hr with ⟨i, hi, rfl⟩
    cases m with
    | nil => cases hi
    | cons r0 rs =>
      rw [getD_map_range _ _ (show 0 < (r0 :: rs).length from Nat.succ_pos rs.length)]
      simp

/-- In-bounds positions of the first argument stay in bounds in the
`Query.pw` output. -/
theorem inB_pw (da : α) (db : β) (f : α → β → γ) (q1 : Query α) (q2 : Query β)
    (p : Nat × Nat) (hr : q1.rect) (hp : q1.inB p) :
    (Query.pw da db f q1 q2).inB p := by
  cases q1 with
  | scalar a => exact hp
  | vec v =>
    refine ⟨?_, hp.2⟩
    simpa using hp.1
  | mat m =>
    refine ⟨by simpa using hp.1, ?_⟩
    rw [getD_map_range _ _ (by simpa using hp.1)]
    simp only [List.length_map, List.length_range]
    exact hr (m.getD p.1 []) (getD_mem [] hp.1) ▸ hp.2

/-- Reading a `Query.pw` output at an in-bounds position gives the
combination of the two inputs at that position. -/
theorem getP_pw (da : α) (db : β) (dc : γ) (f : α → β → γ) (q1 : Query α)
    (q2 : Query β) (p : Nat × Nat) (hk : Query.kindEq q1 q2) (hr : q1.rect)
    (hp : q1.inB p) :
    (Query.pw da db f q1 q2).getP dc p = f (q1.getP da p) (q2.getP db p) := by
  cases q1 with
  | scalar a =>
    cases q2 with
    | scalar b => subst hp; rfl
    | vec w => exact hk.elim
    | mat w => exact hk.elim
  | vec v =>
    cases q2 with
    | scalar b => exact hk.elim
    | vec w =>
      show ((List.range v.length).map _).getD p.1 dc = _
      rw [getD_map_range _ _ hp.1]
      rfl
    | mat w => exact hk.elim
  | mat m =>
    cases q2 with
    | scalar b => exact hk.elim
    | vec w => exact hk.elim
    | mat w =>
      have hcol : p.2 < (m.getD 0 []).length :=
        hr (m.getD p.1 []) (getD_mem [] hp.1) ▸ hp.2
      show (((List.range m.length).map _).getD p.1 []).getD p.2 dc = _
      rw [getD_map_range _ _ hp.1, getD_map_range _ _ hcol]
      rfl

end PwLemmas

theorem grows_refl (σ : Store) : σ.grows σ := ⟨le_refl _, fun _ _ => rfl⟩

theorem grows_trans {σ1 σ2 σ3 : Store} (h12 : σ1.grows σ2) (h23 : σ2.grows σ3) :
    σ1.grows σ3 :=
  ⟨le_trans h12.1 h23.1,
   fun r hr => (h23.2 r (lt_of_lt_of_le hr h12.1)).trans (h12.2 r hr)⟩

/-- Allocation leaves every existing array unchanged. -/
theorem grows_alloc (σ : Store) (a : Arr) : σ.grows (σ.alloc a).1 := by
  refine ⟨by simp [Store.alloc], fun r hr => ?_⟩
  show (σ ++ [a]).getD r [] = σ.getD r []
  rw [List.getD_eq_getElem?_getD, List.getD_eq_getElem?_getD,
    List.getElem?_append_left hr]

/-- Writing to an array allocated during the call (reference at or beyond
the original store's extent) leaves every original array unchanged. -/
theorem grows_write_fresh {σ σ' : Store} {m : Ref} (h : σ.grows σ')
    (hm : σ.length ≤ m) (a : Arr) : σ.grows (σ'.write m a) := by
  refine ⟨by simpa [Store.write] using h.1, fun r hr => ?_⟩
  show (σ'.set m a).getD r [] = _
  rw [List.getD_eq_getElem?_getD,
    List.getElem?_set_ne (Nat.ne_of_gt (lt_of_lt_of_le hr hm)),
    ← List.getD_eq_getElem?_getD]
  exact h.2 r hr

/-- A fold whose step only grows the store grows the store. -/
theorem grows_foldl {β : Type} (step : Store × β → Nat → Store × β)
    (hstep : ∀ (acc : Store × β) (i : Nat), acc.1.grows (step acc i).1) :
    ∀ (l : List Nat) (init : Store × β), init.1.grows ((l.foldl step init).1)
  | [], _ => grows_refl _
  | a :: t, init =>
      grows_trans (hstep init a) (grows_foldl step hstep t (step init a))

theorem grows_single_st (ev : SplineEv) (σ : Store) (xt yt : ℚ)
    (xd yd zd : Ref) :
    σ.grows (single_calculate_deformability_st ev σ xt yt xd yd zd).1 :=
  grows_trans (grows_alloc _ _) (grows_trans (grows_alloc _ _)
    (grows_trans (grows_alloc _ _) (grows_alloc _ _)))

theorem grows_calc_deform_step (ev : SplineEv) (xtv ytv : List ℚ)
    (xd yd zd : Ref) (acc : Store × List ℚ) (i : Nat) :
    acc.1.grows (calc_deform_step ev xtv ytv xd yd zd acc i).1 :=
  grows_single_st ev acc.1 (xtv.getD i 0) (ytv.getD i 0) xd yd zd

theorem grows_calculate_st (ev : SplineEv) (σ : Store)
    (xt yt xd yd zd : Ref) :
    σ.grows (calculate_deformability_st ev σ xt yt xd yd zd).1 :=
  grows_trans
    (grows_foldl (calc_deform_step ev (σ.read xt).vals (σ.read yt).vals xd yd zd)
      (grows_calc_deform_step ev (σ.read xt).vals (σ.read yt).vals xd yd zd)
      (List.range ((σ.read xt).vals.length)) (σ, []))
    (grows_alloc _ _)

theorem grows_smwd_st (ev : SplineEv) (σ : Store) (wt rt wd rd fd : Ref) :
    σ.grows (spline_model_with_deformability_st ev σ wt rt wd rd fd).1 :=
  grows_write_fresh
    (grows_trans (grows_calculate_st ev σ wt rt wd rd fd) (grows_alloc _ _))
    (grows_calculate_st ev σ wt rt wd rd fd).1 _

theorem grows_smwd_scalar_st (ev : SplineEv) (σ : Store) (xt yt : ℚ)
    (wd rd fd : Ref) :
    σ.grows (spline_model_with_deformability_scalar_st ev σ xt yt wd rd fd).1 :=
  grows_write_fresh
    (grows_trans (grows_single_st ev σ xt yt wd rd fd)
      (grows_trans (grows_alloc _ _) (grows_alloc _ _)))
    (grows_trans (grows_single_st ev σ xt yt wd rd fd) (grows_alloc _ _)).1 _

theorem grows_cppd_step (ev : SplineEv) (wdv rdv fdv : List ℚ)
    (wd rd fd : Ref) (acc : Store × List NpFloat) (i : Nat) :
    acc.1.grows (cppd_step ev wdv rdv fdv wd rd fd acc i).1 :=
  grows_trans (grows_alloc _ _) (grows_trans (grows_alloc _ _)
    (grows_trans (grows_alloc _ _) (grows_smwd_scalar_st ev _ _ _ _ _ _)))

/-- Under the `evLast` backend the single-point deformability is `1`
everywhere: the refit tracks the appended outlier exactly. -/
theorem evLast_single (xt yt : ℚ) (xd yd zd : List ℚ) :
    single_calculate_deformability evLast xt yt xd yd zd = 1 := by
  simp [single_calculate_deformability, evLast, List.getLastD_concat]

/-- Under the `evMark` backend the single-point deformability of a test
point is its x coordinate, which makes cell placement observable. -/
theorem evMark_single (xt yt : ℚ) (xd yd zd : List ℚ) :
    single_calculate_deformability evMark xt yt xd yd zd = xt := by
  simp [single_calculate_deformability, evMark, List.getLastD_concat]
  ring

/-- Definitional unfolding of the as-written 2-D branch. -/
theorem asWritten_mat (ev : SplineEv) (m : List (List ℚ)) (yq : Query ℚ)
    (xd yd zd : List ℚ) :
    calculate_deformability_asWritten ev (Query.mat m) yq xd yd zd
      = Query.mat ((List.range (m.getD 0 []).length).map fun j =>
          (List.range m.length).map fun i =>
            single_calculate_deformability ev ((m.getD i []).getD j 0)
              (yq.get2 0 i j) xd yd zd) := rfl

/-! ### Claim theorems -/

/-- C1: in the output of the gated predictor
`spline_model_with_deformability`, every in-bounds position whose
deformability score exceeds `0.5` holds the `nan` sentinel (and not, in
particular, a numeric zero), and every position whose score is at most
`0.5` holds exactly the unmasked `spline_model` prediction for that
position. -/
theorem gated_predictor_masking (ev : SplineEv)
    (width_test ratio_perim_area_test : Query ℚ)
    (width_data ratio_perim_area_data factor_data : List ℚ) (p : Nat × Nat)
    (hr : width_test.rect) (hp : width_test.inB p) :
    ((1 : ℚ) / 2 < (calculate_deformability ev width_test ratio_perim_area_test
        width_data ratio_perim_area_data factor_data).getP 0 p →
      (spline_model_with_deformability ev width_test ratio_perim_area_test
        width_data ratio_perim_area_data factor_data).getP (NpFloat.num 0) p
        = NpFloat.nan) ∧
    ((calculate_deformability ev width_test ratio_perim_area_test
        width_data ratio_perim_area_data factor_data).getP 0 p ≤ (1 : ℚ) / 2 →
      (spline_model_with_deformability ev width_test ratio_perim_area_test
        width_data ratio_perim_area_data factor_data).getP NpFloat.nan p
        = NpFloat.num ((spline_model ev width_test ratio_perim_area_test
            width_data ratio_perim_area_data factor_data).getP 0 p)) := by
  have key : ∀ dc : NpFloat,
      (spline_model_with_deformability ev width_test ratio_perim_area_test
        width_data ratio_perim_area_data factor_data).getP dc p
      = (fun mf df => if (1 : ℚ) / 2 < df then NpFloat.nan else NpFloat.num mf)
          ((spline_model ev width_test ratio_perim_area_test
            width_data ratio_perim_area_data factor_data).getP 0 p)
          ((calculate_deformability ev width_test ratio_perim_area_test
            width_data ratio_perim_area_data factor_data).getP 0 p) := by
    intro dc
    exact getP_pw 0 0 dc
      (fun mf df => if (1 : ℚ) / 2 < df then NpFloat.nan else NpFloat.num mf)
      (spline_model ev width_test ratio_perim_area_test
        width_data ratio_perim_area_data factor_data)
      (calculate_deformability ev width_test ratio_perim_area_test
        width_data ratio_perim_area_data factor_data) p
      (kindEq_pw 0 0
        (fun x y => ev width_data ratio_perim_area_data factor_data
          (some (spline_model_bbox width_test ratio_perim_area_test
            width_data ratio_perim_area_data)) x y)
        0 0
        (fun x y => single_calculate_deformability ev x y
          width_data ratio_perim_area_data factor_data)
        width_test ratio_perim_area_test ratio_perim_area_test)
      (rect_pw 0 0
        (fun x y => ev width_data ratio_perim_area_data factor_data
          (some (spline_model_bbox width_test ratio_perim_area_test
            width_data ratio_perim_area_data)) x y)
        width_test ratio_perim_area_test)
      (inB_pw 0 0
        (fun x y => ev width_data ratio_perim_area_data factor_data
          (some (spline_model_bbox width_test ratio_perim_area_test
            width_data ratio_perim_area_data)) x y)
        width_test ratio_perim_area_test p hr hp)
  constructor
  · intro hgt
    rw [key (NpFloat.num 0)]
    exact if_pos hgt
  · intro hle
    rw [key NpFloat.nan]
    exact if_neg (not_lt.mpr hle)

/-- C1 witness: a concrete run of the gated predictor in which the single
query point has deformability `1 > 0.5` and the returned entry is the
`nan` sentinel. -/
theorem gated_predictor_masking_witness :
    (1 : ℚ) / 2 < (calculate_deformability evLast (Query.vec [1])
      (Query.vec [1]) [0] [0] [0]).getP 0 (0, 0) ∧
    (spline_model_with_deformability evLast (Query.vec [1]) (Query.vec [1])
      [0] [0] [0]).getP (NpFloat.num 0) (0, 0) = NpFloat.nan := by
  have hd : (1 : ℚ) / 2 < (calculate_deformability evLast (Query.vec [1])
      (Query.vec [1]) [0] [0] [0]).getP 0 (0, 0) := by
    simp [calculate_deformability, Query.pw, Query.getP, Query.get1,
      evLast_single]
    norm_num
  exact ⟨hd, (gated_predictor_masking evLast (Query.vec [1]) (Query.vec [1])
    [0] [0] [0] (0, 0) trivial ⟨Nat.one_pos, rfl⟩).1 hd⟩

/-- C2: the single-point deformability routine, with the source's
`initial_fit` `NameError` read as the clearly intended `initial_model`,
fits the baseline over the data with a bounding box that includes the test
point, appends `(x_test, y_test, baseline ± 0.02)`, refits and evaluates
each augmented dataset at the test point, and returns
`max((pos - baseline)/0.02, (baseline - neg)/0.02)`. -/
theorem single_deformability_algorithm (ev : SplineEv) (x_test y_test : ℚ)
    (x_data y_data z_data : List ℚ) :
    (single_calculate_deformability ev x_test y_test x_data y_data z_data =
      (fun baseline =>
        (fun posModel negModel =>
          max ((posModel - baseline) / (1 / 50))
            ((baseline - negModel) / (1 / 50)))
        (ev (x_data ++ [x_test]) (y_data ++ [y_test])
          (z_data ++ [baseline + 1 / 50]) none x_test y_test)
        (ev (x_data ++ [x_test]) (y_data ++ [y_test])
          (z_data ++ [baseline - 1 / 50]) none x_test y_test))
      (ev x_data y_data z_data
        (some (deformability_bbox x_test y_test x_data y_data))
        x_test y_test)) ∧
    (deformability_bbox x_test y_test x_data y_data).1 ≤ x_test ∧
    x_test ≤ (deformability_bbox x_test y_test x_data y_data).2.1 ∧
    (deformability_bbox x_test y_test x_data y_data).2.2.1 ≤ y_test ∧
    y_test ≤ (deformability_bbox x_test y_test x_data y_data).2.2.2 := by
  refine ⟨rfl, ?_, ?_, ?_, ?_⟩
  · exact npMin_le (by simp)
  · exact le_npMax (by simp)
  · exact npMin_le (by simp)
  · exact le_npMax (by simp)

/-- C3: the shape-correct batched deformability routine and the gated
predictor both return outputs of exactly the query's shape for scalar,
1-D and 2-D queries; the 2-D branch as written in the source (stray colon
removed) violates this on a 2-by-3 query, whose output has shape
`(3, 2)`. -/
theorem deformability_shape_preservation :
    (∀ (ev : SplineEv) (width_test ratio_perim_area_test : Query ℚ)
       (width_data ratio_perim_area_data factor_data : List ℚ),
      (calculate_deformability ev width_test ratio_perim_area_test
        width_data ratio_perim_area_data factor_data).shape
        = width_test.shape ∧
      (spline_model_with_deformability ev width_test ratio_perim_area_test
        width_data ratio_perim_area_data factor_data).shape
        = width_test.shape) ∧
    (calculate_deformability_asWritten evMark
        (Query.mat [[1, 2, 3], [4, 5, 6]]) (Query.mat [[0, 0, 0], [0, 0, 0]])
        [] [] []).shape
      ≠ (Query.mat ([[1, 2, 3], [4, 5, 6]] : List (List ℚ))).shape := by
  constructor
  · intro ev wt rt wd rd fd
    constructor
    · exact shape_pw 0 0
        (fun x y => single_calculate_deformability ev x y wd rd fd) wt rt
    · exact (shape_pw 0 0
        (fun mf df => if (1 : ℚ) / 2 < df then NpFloat.nan else NpFloat.num mf)
        (spline_model ev wt rt wd rd fd)
        (calculate_deformability ev wt rt wd rd fd)).trans
        (shape_pw 0 0
          (fun x y => ev wd rd fd (some (spline_model_bbox wt rt wd rd)) x y)
          wt rt)
  · have hs : (calculate_deformability_asWritten evMark
        (Query.mat [[1, 2, 3], [4, 5, 6]]) (Query.mat [[0, 0, 0], [0, 0, 0]])
        [] [] []).shape = [3, 2] := rfl
    rw [hs]
    decide

/-- C4: on the 2-by-3 query grid `[[1,2,3],[4,5,6]]` (under the marker
backend `evMark`, whose single-point deformability at `(x, y)` is `x`),
the source's 2-D iteration as written produces the transpose — cell
`(i, j)` of the query lands at position `(j, i)` — while iterating the
true row extent outside and the true column extent inside visits every
cell exactly once and keeps it in place. -/
theorem deformability_2d_cell_coverage :
    calculate_deformability_asWritten evMark (Query.mat [[1, 2, 3], [4, 5, 6]])
        (Query.mat [[0, 0, 0], [0, 0, 0]]) [] [] []
      = Query.mat [[1, 4], [2, 5], [3, 6]] ∧
    calculate_deformability evMark (Query.mat [[1, 2, 3], [4, 5, 6]])
        (Query.mat [[0, 0, 0], [0, 0, 0]]) [] [] []
      = Query.mat [[1, 2, 3], [4, 5, 6]] := by
  constructor
  · rw [asWritten_mat]
    simp only [evMark_single]
    decide
  · show Query.pw 0 0
        (fun x y => single_calculate_deformability evMark x y [] [] [])
        (Query.mat [[1, 2, 3], [4, 5, 6]]) (Query.mat [[0, 0, 0], [0, 0, 0]])
      = Query.mat [[1, 2, 3], [4, 5, 6]]
    simp only [Query.pw, evMark_single]
    decide

theorem grows_cppd_st (ev : SplineEv) (σ : Store) (wd rd fd : Ref) :
    σ.grows (calculate_percent_prediction_differences_st ev σ wd rd fd).1 :=
  grows_trans
    (grows_foldl (cppd_step ev (σ.read wd).vals (σ.read rd).vals (σ.read fd).vals wd rd fd)
      (grows_cppd_step ev (σ.read wd).vals (σ.read rd).vals (σ.read fd).vals wd rd fd)
      (List.range ((σ.read wd).length)) (σ, []))
    (grows_alloc _ _)

/-- Auxiliary: a percent difference whose denominator factor is zero is
never finite, whatever the prediction was. -/
theorem div_mul_sub_zero_nonfinite (p : NpFloat) :
    (NpFloat.div (NpFloat.mul (NpFloat.num 100)
      (NpFloat.sub (NpFloat.num 0) p)) (NpFloat.num 0)).isFinite = false := by
  rcases p with q | _ | _ | _ <;>
    simp only [NpFloat.sub, NpFloat.mul, NpFloat.div, NpFloat.isFinite] <;>
    split_ifs <;> rfl

/-- C5: for a calibration set of length `n` with all factors nonzero,
`calculate_percent_prediction_differences` returns a list of length `n`
whose entry `i` is `100 * (factors[i] - prediction_i) / factors[i]` in
floating-point arithmetic, where `prediction_i` is the gated predictor's
output at calibration point `i` fitted on the `n - 1` calibration points
obtained by removing index `i`. -/
theorem percent_differences_leave_one_out (ev : SplineEv)
    (width_data ratio_perim_area_data factor_data : List ℚ)
    (hlr : ratio_perim_area_data.length = width_data.length)
    (hlf : factor_data.length = width_data.length)
    (hfz : ∀ j, j < width_data.length → factor_data.getD j 0 ≠ 0) :
    (calculate_percent_prediction_differences ev width_data
      ratio_perim_area_data factor_data).length = width_data.length ∧
    ∀ i, i < width_data.length →
      (width_data.eraseIdx i).length = width_data.length - 1 ∧
      width_data.eraseIdx i = width_data.take i ++ width_data.drop (i + 1) ∧
      (calculate_percent_prediction_differences ev width_data
        ratio_perim_area_data factor_data).getD i NpFloat.nan
        = NpFloat.div
            (NpFloat.mul (NpFloat.num 100)
              (NpFloat.sub (NpFloat.num (factor_data.getD i 0))
                ((spline_model_with_deformability ev
                  (Query.scalar (width_data.getD i 0))
                  (Query.scalar (ratio_perim_area_data.getD i 0))
                  (width_data.take i ++ width_data.drop (i + 1))
                  (ratio_perim_area_data.take i
                    ++ ratio_perim_area_data.drop (i + 1))
                  (factor_data.take i ++ factor_data.drop (i + 1))).getS
                    NpFloat.nan)))
            (NpFloat.num (factor_data.getD i 0)) := by
  constructor
  · simp [calculate_percent_prediction_differences]
  · intro i hi
    refine ⟨List.length_eraseIdx_of_lt hi,
      List.eraseIdx_eq_take_drop_succ _ _, ?_⟩
    show (calculate_percent_prediction_differences ev width_data
      ratio_perim_area_data factor_data).getD i NpFloat.nan = _
    simp only [calculate_percent_prediction_differences]
    rw [getD_map_range _ _ hi, getD_map_range _ _ hi]
    simp only [List.eraseIdx_eq_take_drop_succ]

/-- C5 witness: a concrete two-point calibration set with nonzero factors
on which the leave-one-out diagnostic returns two entries. -/
theorem percent_differences_leave_one_out_witness :
    (∀ j, j < ([1, 2] : List ℚ).length → ([1, 1] : List ℚ).getD j 0 ≠ 0) ∧
    (calculate_percent_prediction_differences evLast [1, 2] [1, 1]
      [1, 1]).length = 2 :=
  ⟨by decide,
   (percent_differences_leave_one_out evLast [1, 2] [1, 1] [1, 1]
     rfl rfl (by decide)).1⟩

/-- C6: the bounding box of `spline_model` is exactly
`[min, max]` of data and query united on each axis, and therefore contains
the full calibration range and the full query range; the bounding box of
the single-point deformability fit likewise covers the data and the test
point on each axis. -/
theorem bounding_box_containment (width_test ratio_perim_area_test : Query ℚ)
    (width_data ratio_perim_area_data : List ℚ) (x_test y_test : ℚ)
    (x_data y_data : List ℚ) (hwd : width_data ≠ [])
    (hwt : width_test.toList ≠ []) (hrd : ratio_perim_area_data ≠ [])
    (hrt : ratio_perim_area_test.toList ≠ []) :
    (spline_model_bbox width_test ratio_perim_area_test width_data
      ratio_perim_area_data).1 = npMin (width_data ++ width_test.toList) ∧
    (spline_model_bbox width_test ratio_perim_area_test width_data
      ratio_perim_area_data).2.1 = npMax (width_data ++ width_test.toList) ∧
    (spline_model_bbox width_test ratio_perim_area_test width_data
      ratio_perim_area_data).2.2.1
      = npMin (ratio_perim_area_data ++ ratio_perim_area_test.toList) ∧
    (spline_model_bbox width_test ratio_perim_area_test width_data
      ratio_perim_area_data).2.2.2
      = npMax (ratio_perim_area_data ++ ratio_perim_area_test.toList) ∧
    (∀ x ∈ width_data ++ width_test.toList,
      (spline_model_bbox width_test ratio_perim_area_test width_data
        ratio_perim_area_data).1 ≤ x ∧
      x ≤ (spline_model_bbox width_test ratio_perim_area_test width_data
        ratio_perim_area_data).2.1) ∧
    (∀ y ∈ ratio_perim_area_data ++ ratio_perim_area_test.toList,
      (spline_model_bbox width_test ratio_perim_area_test width_data
        ratio_perim_area_data).2.2.1 ≤ y ∧
      y ≤ (spline_model_bbox width_test ratio_perim_area_test width_data
        ratio_perim_area_data).2.2.2) ∧
    (deformability_bbox x_test y_test x_data y_data).1
      = npMin (x_data ++ [x_test]) ∧
    (deformability_bbox x_test y_test x_data y_data).2.1
      = npMax (x_data ++ [x_test]) ∧
    (deformability_bbox x_test y_test x_data y_data).2.2.1
      = npMin (y_data ++ [y_test]) ∧
    (deformability_bbox x_test y_test x_data y_data).2.2.2
      = npMax (y_data ++ [y_test]) ∧
    (∀ x ∈ x_data ++ [x_test],
      (deformability_bbox x_test y_test x_data y_data).1 ≤ x ∧
      x ≤ (deformability_bbox x_test y_test x_data y_data).2.1) ∧
    (∀ y ∈ y_data ++ [y_test],
      (deformability_bbox x_test y_test x_data y_data).2.2.1 ≤ y ∧
      y ≤ (deformability_bbox x_test y_test x_data y_data).2.2.2) := by
  have e1 : (spline_model_bbox width_test ratio_perim_area_test width_data
      ratio_perim_area_data).1 = npMin (width_data ++ width_test.toList) :=
    (npMin_append hwd hwt).symm
  have e2 : (spline_model_bbox width_test ratio_perim_area_test width_data
      ratio_perim_area_data).2.1 = npMax (width_data ++ width_test.toList) :=
    (npMax_append hwd hwt).symm
  have e3 : (spline_model_bbox width_test ratio_perim_area_test width_data
      ratio_perim_area_data).2.2.1
      = npMin (ratio_perim_area_data ++ ratio_perim_area_test.toList) :=
    (npMin_append hrd hrt).symm
  have e4 : (spline_model_bbox width_test ratio_perim_area_test width_data
      ratio_perim_area_data).2.2.2
      = npMax (ratio_perim_area_data ++ ratio_perim_area_test.toList) :=
    (npMax_append hrd hrt).symm
  refine ⟨e1, e2, e3, e4, ?_, ?_, rfl, rfl, rfl, rfl, ?_, ?_⟩
  · intro x hx
    exact ⟨le_trans (le_of_eq e1) (npMin_le hx),
      le_trans (le_npMax hx) (le_of_eq e2.symm)⟩
  · intro y hy
    exact ⟨le_trans (le_of_eq e3) (npMin_le hy),
      le_trans (le_npMax hy) (le_of_eq e4.symm)⟩
  · intro x hx
    exact ⟨npMin_le hx, le_npMax hx⟩
  · intro y hy
    exact ⟨npMin_le hy, le_npMax hy⟩

/-- C6 witness: the bounding-box characterisation applied to a concrete
one-point calibration set and one-point query. -/
theorem bounding_box_containment_witness :
    ([1] : List ℚ) ≠ [] ∧
    (spline_model_bbox (Query.vec [1]) (Query.vec [1]) [1] [1]).1
      = npMin ([1] ++ (Query.vec [1] : Query ℚ).toList) :=
  ⟨List.cons_ne_nil 1 [],
   (bounding_box_containment (Query.vec [1]) (Query.vec [1]) [1] [1] 1 1
     [1] [1] (List.cons_ne_nil 1 []) (List.cons_ne_nil 1 [])
     (List.cons_ne_nil 1 []) (List.cons_ne_nil 1 [])).1⟩

/-- C7: when a calibration factor is zero, the percent-difference
diagnostic does not crash: the corresponding entry is a well-defined
non-finite value (an infinity or `nan`). -/
theorem percent_differences_zero_factor_nonfinite (ev : SplineEv)
    (width_data ratio_perim_area_data factor_data : List ℚ) (i : Nat)
    (hi : i < width_data.length) (hz : factor_data.getD i 0 = 0) :
    ((calculate_percent_prediction_differences ev width_data
      ratio_perim_area_data factor_data).getD i NpFloat.nan).isFinite
      = false := by
  simp only [calculate_percent_prediction_differences]
  rw [getD_map_range _ _ hi, hz]
  exact div_mul_sub_zero_nonfinite _

/-- C7 witness: a concrete calibration set whose only factor is zero; the
percent-difference entry is non-finite. -/
theorem percent_differences_zero_factor_nonfinite_witness :
    0 < ([1] : List ℚ).length ∧
    ((calculate_percent_prediction_differences evLast [1] [1] [0]).getD 0
      NpFloat.nan).isFinite = false :=
  ⟨by decide,
   percent_differences_zero_factor_nonfinite evLast [1] [1] [0] 0
     (by decide) (by decide)⟩

/-- C8: all four operations are deterministic functions of their
arguments (and of the fixed spline backend): calls on equal inputs return
equal outputs, and the embedding is a pure function with no ambient state
to modify. -/
theorem operations_deterministic (ev : SplineEv)
    (wt wt2 rt rt2 : Query ℚ) (wd wd2 rd rd2 fd fd2 : List ℚ)
    (h1 : wt = wt2) (h2 : rt = rt2) (h3 : wd = wd2) (h4 : rd = rd2)
    (h5 : fd = fd2) :
    spline_model ev wt rt wd rd fd = spline_model ev wt2 rt2 wd2 rd2 fd2 ∧
    calculate_deformability ev wt rt wd rd fd
      = calculate_deformability ev wt2 rt2 wd2 rd2 fd2 ∧
    spline_model_with_deformability ev wt rt wd rd fd
      = spline_model_with_deformability ev wt2 rt2 wd2 rd2 fd2 ∧
    calculate_percent_prediction_differences ev wd rd fd
      = calculate_percent_prediction_differences ev wd2 rd2 fd2 := by
  subst h1
  subst h2
  subst h3
  subst h4
  subst h5
  exact ⟨rfl, rfl, rfl, rfl⟩

/-- C8 witness: two identical concrete calls to the spline model agree. -/
theorem operations_deterministic_witness :
    ((Query.scalar 1 : Query ℚ) = Query.scalar 1) ∧
    spline_model evLast (Query.scalar 1) (Query.scalar 1) [1] [1] [1]
      = spline_model evLast (Query.scalar 1) (Query.scalar 1) [1] [1] [1] :=
  ⟨rfl,
   (operations_deterministic evLast (Query.scalar 1) (Query.scalar 1)
     (Query.scalar 1) (Query.scalar 1) [1] [1] [1] [1] [1] [1]
     rfl rfl rfl rfl rfl).1⟩

/-- C10: if the leave-one-out gated prediction at calibration index `i` is
the invalid sentinel — its deformability exceeds `0.5` — then entry `i` of
`calculate_percent_prediction_differences` is `nan`, whatever the factors
are (so the output can be non-finite even with all factors nonzero). -/
theorem percent_differences_nan_on_invalid_prediction (ev : SplineEv)
    (width_data ratio_perim_area_data factor_data : List ℚ) (i : Nat)
    (hi : i < width_data.length)
    (hd : (1 : ℚ) / 2 < single_calculate_deformability ev
      (width_data.getD i 0) (ratio_perim_area_data.getD i 0)
      (width_data.eraseIdx i) (ratio_perim_area_data.eraseIdx i)
      (factor_data.eraseIdx i)) :
    (calculate_percent_prediction_differences ev width_data
      ratio_perim_area_data factor_data).getD i NpFloat.nan
      = NpFloat.nan := by
  simp only [calculate_percent_prediction_differences]
  rw [getD_map_range _ _ hi, getD_map_range _ _ hi]
  have hpred : (spline_model_with_deformability ev
      (Query.scalar (width_data.getD i 0))
      (Query.scalar (ratio_perim_area_data.getD i 0))
      (width_data.eraseIdx i) (ratio_perim_area_data.eraseIdx i)
      (factor_data.eraseIdx i)).getS NpFloat.nan = NpFloat.nan :=
    if_pos hd
  rw [hpred]
  rfl

/-- C10 witness: under the `evLast` backend every point has deformability
`1 > 0.5`, so the leave-one-out entry is `nan` although the factor is the
nonzero `1`. -/
theorem percent_differences_nan_on_invalid_prediction_witness :
    (1 : ℚ) / 2 < single_calculate_deformability evLast
      (([1] : List ℚ).getD 0 0) (([1] : List ℚ).getD 0 0)
      (([1] : List ℚ).eraseIdx 0) (([1] : List ℚ).eraseIdx 0)
      (([1] : List ℚ).eraseIdx 0) ∧
    (calculate_percent_prediction_differences evLast [1] [1] [1]).getD 0
      NpFloat.nan = NpFloat.nan := by
  have hd : (1 : ℚ) / 2 < single_calculate_deformability evLast
      (([1] : List ℚ).getD 0 0) (([1] : List ℚ).getD 0 0)
      (([1] : List ℚ).eraseIdx 0) (([1] : List ℚ).eraseIdx 0)
      (([1] : List ℚ).eraseIdx 0) := by
    rw [evLast_single]
    norm_num
  exact ⟨hd, percent_differences_nan_on_invalid_prediction evLast [1] [1] [1]
    0 (by decide) hd⟩

/-- C9: no operation mutates a caller-supplied array.  In the store model
the appends, deletes and the fresh prediction returned by `spline.ev` are
new allocations, and the only in-place write (the masking assignment)
targets the freshly allocated prediction, so after any of the calls every
array that existed before the call reads back with exactly its previous
contents. -/
theorem operations_no_caller_mutation (ev : SplineEv) (σ : Store)
    (x_test y_test : ℚ) (r1 r2 r3 r4 r5 : Ref) (r : Ref)
    (hr : r < σ.length) :
    ((single_calculate_deformability_st ev σ x_test y_test r3 r4 r5).1).read r
      = σ.read r ∧
    ((spline_model_with_deformability_st ev σ r1 r2 r3 r4 r5).1).read r
      = σ.read r ∧
    ((spline_model_with_deformability_scalar_st ev σ x_test y_test
      r3 r4 r5).1).read r = σ.read r ∧
    ((calculate_percent_prediction_differences_st ev σ r3 r4 r5).1).read r
      = σ.read r :=
  ⟨(grows_single_st ev σ x_test y_test r3 r4 r5).2 r hr,
   (grows_smwd_st ev σ r1 r2 r3 r4 r5).2 r hr,
   (grows_smwd_scalar_st ev σ x_test y_test r3 r4 r5).2 r hr,
   (grows_cppd_st ev σ r3 r4 r5).2 r hr⟩

/-- C9 witness: running the leave-one-out diagnostic over a concrete
one-array store leaves that array unchanged. -/
theorem operations_no_caller_mutation_witness :
    0 < ([[NpFloat.num 1]] : Store).length ∧
    Store.read (calculate_percent_prediction_differences_st evLast
      [[NpFloat.num 1]] 0 0 0).1 0
      = Store.read [[NpFloat.num 1]] 0 :=
  ⟨by decide,
   (operations_no_caller_mutation evLast [[NpFloat.num 1]] 1 1 0 0 0 0 0 0
     (by decide)).2.2.2⟩

end Electroninserts
